import Mathlib

/-!
Shallow embedding of the inventory-management-system backend
(src/backend/inventory: products.ts, assets.ts, the staff handlers,
the report handlers in the second part of types.ts, and the SQL schema in
migrations/1_create_tables.up.sql and 2_add_staff_table.up.sql).

Modelling conventions:
* A database state is a record of row lists plus the BIGSERIAL sequence
  counters.  SQL NOW() is modelled by an explicit `now : Nat` argument.
* DOUBLE PRECISION prices are modelled exactly as `Rat`; INTEGER columns as
  `Int`; ids as `Nat`; nullable columns as `Option`.
* Each Encore handler becomes a function returning `Except ApiError (α × DB)`
  (reads return `Except ApiError α`).  An error result leaves the database
  unchanged, which models both single-statement atomicity and the explicit
  BEGIN/ROLLBACK in createTransaction.
* The generated column `quantity_available` is recomputed at every INSERT and
  UPDATE of the inventory table, as GENERATED ALWAYS ... STORED does.
* The TypeScript truthiness test `if (req.staffId)` is modelled as
  "staffId present and nonzero"; the foreign key `staff_id REFERENCES staff(id)`
  is checked by the INSERT itself and surfaces as a distinct error.
* The `categories` breakdown of the report endpoints is not modelled: no claim
  mentions it.
-/

/-- Error classes of encore.dev APIError as used by the handlers, plus the raw
database error that createTransaction rethrows after rollback.  -/
inductive ApiError where
  | notFound (msg : String)
  | alreadyExists (msg : String)
  | invalidArgument (msg : String)
  | internalErr (msg : String)
  | fkViolation (msg : String)
deriving DecidableEq, Repr

/-- transaction_type CHECK constraint values. -/
inductive TransactionType where
  | receive
  | issue
  | adjustment
deriving DecidableEq, Repr

/-- assets.status CHECK constraint values. -/
inductive AssetStatus where
  | active
  | inactive
  | maintenance
  | disposed
deriving DecidableEq, Repr

/-- staff.status CHECK constraint values. -/
inductive StaffStatus where
  | active
  | inactive
  | terminated
deriving DecidableEq, Repr

/-- A row of the products table. -/
structure ProductRow where
  id : Nat
  name : String
  description : Option String
  sku : String
  category : Option String
  unitOfMeasure : String
  unitPrice : Rat
  reorderLevel : Int
  maxStockLevel : Option Int
  createdAt : Nat
  updatedAt : Nat
deriving DecidableEq, Repr

/-- A row of the inventory table; quantityAvailable is the generated
stored column quantity_on_hand - quantity_reserved. -/
structure InventoryRow where
  id : Nat
  productId : Nat
  quantityOnHand : Int
  quantityReserved : Int
  quantityAvailable : Int
  lastUpdated : Nat
deriving DecidableEq, Repr

/-- A row of the inventory_transactions table (staff_id added by
migration 2). -/
structure TransactionRow where
  id : Nat
  productId : Nat
  transactionType : TransactionType
  quantity : Int
  referenceNumber : Option String
  notes : Option String
  createdAt : Nat
  createdBy : Option String
  staffId : Option Nat
deriving DecidableEq, Repr

/-- A row of the assets table. -/
structure AssetRow where
  id : Nat
  assetTag : String
  name : String
  description : Option String
  category : Option String
  brand : Option String
  model : Option String
  serialNumber : Option String
  purchaseDate : Option Nat
  purchasePrice : Option Rat
  currentValue : Option Rat
  location : Option String
  status : AssetStatus
  assignedTo : Option String
  warrantyExpiry : Option Nat
  createdAt : Nat
  updatedAt : Nat
deriving DecidableEq, Repr

/-- A row of the asset_maintenance table. -/
structure MaintenanceRow where
  id : Nat
  assetId : Nat
  maintenanceType : String
  description : Option String
  cost : Option Rat
  performedDate : Nat
  performedBy : Option String
  nextDueDate : Option Nat
  createdAt : Nat
deriving DecidableEq, Repr

/-- A row of the staff table. -/
structure StaffRow where
  id : Nat
  employeeId : String
  firstName : String
  lastName : String
  email : Option String
  phone : Option String
  department : Option String
  position : Option String
  hireDate : Option Nat
  status : StaffStatus
  createdAt : Nat
  updatedAt : Nat
deriving DecidableEq, Repr

/-- The whole database: the six tables and their BIGSERIAL counters. -/
structure DB where
  products : List ProductRow
  inventory : List InventoryRow
  transactions : List TransactionRow
  assets : List AssetRow
  maintenance : List MaintenanceRow
  staff : List StaffRow
  nextProductId : Nat
  nextInventoryId : Nat
  nextTransactionId : Nat
  nextAssetId : Nat
  nextMaintenanceId : Nat
  nextStaffId : Nat
deriving DecidableEq, Repr

/-- The freshly migrated database: all tables empty, all sequences at 1. -/
def DB.empty : DB :=
  { products := [], inventory := [], transactions := [], assets := []
    maintenance := [], staff := []
    nextProductId := 1, nextInventoryId := 1, nextTransactionId := 1
    nextAssetId := 1, nextMaintenanceId := 1, nextStaffId := 1 }

/-- Request body of POST /products (products.ts CreateProductRequest). -/
structure CreateProductRequest where
  name : String
  description : Option String
  sku : String
  category : Option String
  unitOfMeasure : String
  unitPrice : Rat
  reorderLevel : Int
  maxStockLevel : Option Int
deriving DecidableEq, Repr

/-- Request body of PUT /products/:id (products.ts UpdateProductRequest). -/
structure UpdateProductRequest where
  id : Nat
  name : String
  description : Option String
  sku : String
  category : Option String
  unitOfMeasure : String
  unitPrice : Rat
  reorderLevel : Int
  maxStockLevel : Option Int
deriving DecidableEq, Repr

/-- Request body of POST /transactions (transactions handler,
CreateTransactionRequest). -/
structure CreateTransactionRequest where
  productId : Nat
  transactionType : TransactionType
  quantity : Int
  referenceNumber : Option String
  notes : Option String
  createdBy : Option String
  staffId : Option Nat
deriving DecidableEq, Repr

/-- Request body of POST /assets (assets.ts CreateAssetRequest). -/
structure CreateAssetRequest where
  assetTag : String
  name : String
  description : Option String
  category : Option String
  brand : Option String
  model : Option String
  serialNumber : Option String
  purchaseDate : Option Nat
  purchasePrice : Option Rat
  currentValue : Option Rat
  location : Option String
  status : AssetStatus
  assignedTo : Option String
  warrantyExpiry : Option Nat
deriving DecidableEq, Repr

/-- Request body of PUT /assets/:id (assets.ts UpdateAssetRequest). -/
structure UpdateAssetRequest where
  id : Nat
  assetTag : String
  name : String
  description : Option String
  category : Option String
  brand : Option String
  model : Option String
  serialNumber : Option String
  purchaseDate : Option Nat
  purchasePrice : Option Rat
  currentValue : Option Rat
  location : Option String
  status : AssetStatus
  assignedTo : Option String
  warrantyExpiry : Option Nat
deriving DecidableEq, Repr

/-- Request body of POST /assets/maintenance (assets.ts
CreateMaintenanceRequest). -/
structure CreateMaintenanceRequest where
  assetId : Nat
  maintenanceType : String
  description : Option String
  cost : Option Rat
  performedDate : Nat
  performedBy : Option String
  nextDueDate : Option Nat
deriving DecidableEq, Repr

/-- Request body of POST /staff (staff handler CreateStaffRequest). -/
structure CreateStaffRequest where
  employeeId : String
  firstName : String
  lastName : String
  email : Option String
  phone : Option String
  department : Option String
  position : Option String
  hireDate : Option Nat
  status : StaffStatus
deriving DecidableEq, Repr

/-- Request body of PUT /staff/:id (staff handler UpdateStaffRequest). -/
structure UpdateStaffRequest where
  id : Nat
  employeeId : String
  firstName : String
  lastName : String
  email : Option String
  phone : Option String
  department : Option String
  position : Option String
  hireDate : Option Nat
  status : StaffStatus
deriving DecidableEq, Repr

/-- Database state after an operation: the new state on success, the old
state on an error (statement atomicity / explicit rollback). -/
def dbAfter {α : Type} (r : Except ApiError (α × DB)) (db : DB) : DB :=
  match r with
  | .ok pr => pr.2
  | .error _ => db

/-! ## Product handlers (products.ts) -/

/-- createProduct (products.ts lines 33-62): INSERT INTO products (sku UNIQUE
triggers 23505 -> alreadyExists), then INSERT the initial inventory record
with quantities 0, 0. -/
def createProduct (now : Nat) (req : CreateProductRequest) (db : DB) :
    Except ApiError (ProductRow × DB) :=
  if db.products.any (fun p => p.sku == req.sku) then
    .error (.alreadyExists "Product with this SKU already exists")
  else
    let p : ProductRow :=
      { id := db.nextProductId, name := req.name, description := req.description
        sku := req.sku, category := req.category
        unitOfMeasure := req.unitOfMeasure, unitPrice := req.unitPrice
        reorderLevel := req.reorderLevel, maxStockLevel := req.maxStockLevel
        createdAt := now, updatedAt := now }
    let ir : InventoryRow :=
      { id := db.nextInventoryId, productId := p.id
        quantityOnHand := 0, quantityReserved := 0
        quantityAvailable := 0 - 0, lastUpdated := now }
    .ok (p, { db with
      products := db.products ++ [p]
      inventory := db.inventory ++ [ir]
      nextProductId := db.nextProductId + 1
      nextInventoryId := db.nextInventoryId + 1 })

/-- getProduct (products.ts lines 117-134): SELECT by id, notFound when no
row matches. -/
def getProduct (i : Nat) (db : DB) : Except ApiError ProductRow :=
  match db.products.find? (fun p => p.id == i) with
  | some p => .ok p
  | none => .error (.notFound "Product not found")

/-- The SET clause of the UPDATE in updateProduct, applied to one row. -/
def applyProductUpdate (now : Nat) (req : UpdateProductRequest)
    (p : ProductRow) : ProductRow :=
  { p with name := req.name, description := req.description, sku := req.sku
           category := req.category, unitOfMeasure := req.unitOfMeasure
           unitPrice := req.unitPrice, reorderLevel := req.reorderLevel
           maxStockLevel := req.maxStockLevel, updatedAt := now }

/-- updateProduct (products.ts lines 137-165): UPDATE ... WHERE id = req.id
RETURNING; null row -> notFound; a unique-constraint violation on sku
(another row already holding the new sku) -> alreadyExists. -/
def updateProduct (now : Nat) (req : UpdateProductRequest) (db : DB) :
    Except ApiError (ProductRow × DB) :=
  match (db.products.filter (fun p => p.id == req.id)).head? with
  | none => .error (.notFound "Product not found")
  | some p =>
    if db.products.any (fun q => q.id != req.id && q.sku == req.sku) then
      .error (.alreadyExists "Product with this SKU already exists")
    else
      .ok (applyProductUpdate now req p, { db with
        products := db.products.map
          (fun q => if q.id == req.id then applyProductUpdate now req q else q) })

/-- deleteProduct (products.ts lines 168-179): DELETE ... RETURNING id,
notFound when nothing was deleted; ON DELETE CASCADE removes the product's
inventory and inventory_transactions rows. -/
def deleteProduct (i : Nat) (db : DB) : Except ApiError (Unit × DB) :=
  if db.products.any (fun p => p.id == i) then
    .ok ((), { db with
      products := db.products.filter (fun p => p.id != i)
      inventory := db.inventory.filter (fun ir => ir.productId != i)
      transactions := db.transactions.filter (fun t => t.productId != i) })
  else
    .error (.notFound "Product not found")

/-! ## Transaction handler (createTransaction, products.ts lines 199-276) -/

/-- The switch on transactionType (lines 239-250): the signed change applied
to quantity_on_hand. -/
def quantityChange (req : CreateTransactionRequest) : Int :=
  match req.transactionType with
  | .receive => req.quantity
  | .issue => -req.quantity
  | .adjustment => req.quantity

/-- The SET clause of the inventory UPDATE (lines 253-258); the generated
quantity_available column is recomputed by the database. -/
def applyQtyChange (now : Nat) (change : Int) (ir : InventoryRow) :
    InventoryRow :=
  { ir with quantityOnHand := ir.quantityOnHand + change
            quantityAvailable := ir.quantityOnHand + change - ir.quantityReserved
            lastUpdated := now }

/-- The TypeScript truthiness guard `if (req.staffId)` together with the
staff lookup (lines 215-223): true when a nonzero staffId is supplied but no
staff row has that id. -/
def staffCheckFails (req : CreateTransactionRequest) (db : DB) : Bool :=
  match req.staffId with
  | some s => s != 0 && !(db.staff.any (fun st => st.id == s))
  | none => false

/-- The foreign key staff_id REFERENCES staff(id) checked by the INSERT into
inventory_transactions: violated when a staffId is supplied whose row does
not exist (NULL staff_id is allowed). -/
def staffFkViolated (req : CreateTransactionRequest) (db : DB) : Bool :=
  match req.staffId with
  | some s => !(db.staff.any (fun st => st.id == s))
  | none => false

/-- The row inserted into inventory_transactions (lines 226-232). -/
def newTransactionRow (now : Nat) (req : CreateTransactionRequest) (db : DB) :
    TransactionRow :=
  { id := db.nextTransactionId, productId := req.productId
    transactionType := req.transactionType, quantity := req.quantity
    referenceNumber := req.referenceNumber, notes := req.notes
    createdAt := now, createdBy := req.createdBy, staffId := req.staffId }

/-- The committed state of a successful createTransaction: the inserted
transaction row plus the inventory UPDATE applied to every row of the
product (WHERE product_id = req.productId). -/
def commitTransaction (now : Nat) (req : CreateTransactionRequest) (db : DB) :
    DB :=
  { db with
    transactions := db.transactions ++ [newTransactionRow now req db]
    inventory := db.inventory.map
      (fun ir => if ir.productId == req.productId then
        applyQtyChange now (quantityChange req) ir else ir)
    nextTransactionId := db.nextTransactionId + 1 }

/-- createTransaction (products.ts lines 199-276): inside BEGIN ... COMMIT:
verify the product exists (notFound), verify staff when req.staffId is
truthy (notFound), INSERT the transaction row (the staff_id foreign key is
enforced by the database and its violation is rethrown raw after rollback),
UPDATE inventory by the signed change (the first returned row feeds the
guard), reject with invalidArgument when the resulting quantity_on_hand is
negative.  Any error rolls the whole transaction back. -/
def createTransaction (now : Nat) (req : CreateTransactionRequest) (db : DB) :
    Except ApiError (TransactionRow × DB) :=
  match db.products.find? (fun p => p.id == req.productId) with
  | none => .error (.notFound "Product not found")
  | some _ =>
    if staffCheckFails req db then
      .error (.notFound "Staff member not found")
    else
      if staffFkViolated req db then
        .error (.fkViolation "inventory_transactions_staff_id_fkey")
      else
        match ((db.inventory.filter (fun ir => ir.productId == req.productId)).map
            (applyQtyChange now (quantityChange req))).head? with
        | none => .error (.internalErr "Failed to update inventory")
        | some firstRow =>
          if firstRow.quantityOnHand < 0 then
            .error (.invalidArgument "Transaction would result in negative inventory")
          else
            .ok (newTransactionRow now req db, commitTransaction now req db)

/-! ## Asset handlers (assets.ts) -/

/-- createAsset (assets.ts lines 59-88): INSERT INTO assets; the UNIQUE
asset_tag triggers 23505 -> alreadyExists. -/
def createAsset (now : Nat) (req : CreateAssetRequest) (db : DB) :
    Except ApiError (AssetRow × DB) :=
  if db.assets.any (fun a => a.assetTag == req.assetTag) then
    .error (.alreadyExists "Asset with this tag already exists")
  else
    let a : AssetRow :=
      { id := db.nextAssetId, assetTag := req.assetTag, name := req.name
        description := req.description, category := req.category
        brand := req.brand, model := req.model
        serialNumber := req.serialNumber, purchaseDate := req.purchaseDate
        purchasePrice := req.purchasePrice, currentValue := req.currentValue
        location := req.location, status := req.status
        assignedTo := req.assignedTo, warrantyExpiry := req.warrantyExpiry
        createdAt := now, updatedAt := now }
    .ok (a, { db with
      assets := db.assets ++ [a]
      nextAssetId := db.nextAssetId + 1 })

/-- getAsset (assets.ts lines 109-128): SELECT by id, notFound when no row
matches. -/
def getAsset (i : Nat) (db : DB) : Except ApiError AssetRow :=
  match db.assets.find? (fun a => a.id == i) with
  | some a => .ok a
  | none => .error (.notFound "Asset not found")

/-- The SET clause of the UPDATE in updateAsset, applied to one row. -/
def applyAssetUpdate (now : Nat) (req : UpdateAssetRequest) (a : AssetRow) :
    AssetRow :=
  { a with assetTag := req.assetTag, name := req.name
           description := req.description, category := req.category
           brand := req.brand, model := req.model
           serialNumber := req.serialNumber, purchaseDate := req.purchaseDate
           purchasePrice := req.purchasePrice, currentValue := req.currentValue
           location := req.location, status := req.status
           assignedTo := req.assignedTo, warrantyExpiry := req.warrantyExpiry
           updatedAt := now }

/-- updateAsset (assets.ts lines 131-163): UPDATE ... WHERE id RETURNING;
null -> notFound; a unique-constraint violation on asset_tag ->
alreadyExists. -/
def updateAsset (now : Nat) (req : UpdateAssetRequest) (db : DB) :
    Except ApiError (AssetRow × DB) :=
  match (db.assets.filter (fun a => a.id == req.id)).head? with
  | none => .error (.notFound "Asset not found")
  | some a =>
    if db.assets.any (fun b => b.id != req.id && b.assetTag == req.assetTag) then
      .error (.alreadyExists "Asset with this tag already exists")
    else
      .ok (applyAssetUpdate now req a, { db with
        assets := db.assets.map
          (fun b => if b.id == req.id then applyAssetUpdate now req b else b) })

/-- deleteAsset (assets.ts lines 166-177): DELETE ... RETURNING id, notFound
when nothing was deleted; ON DELETE CASCADE removes the asset's
asset_maintenance rows. -/
def deleteAsset (i : Nat) (db : DB) : Except ApiError (Unit × DB) :=
  if db.assets.any (fun a => a.id == i) then
    .ok ((), { db with
      assets := db.assets.filter (fun a => a.id != i)
      maintenance := db.maintenance.filter (fun m => m.assetId != i) })
  else
    .error (.notFound "Asset not found")

/-- createMaintenance (assets.ts lines 180-207): verify the asset exists
(notFound), then INSERT INTO asset_maintenance. -/
def createMaintenance (now : Nat) (req : CreateMaintenanceRequest) (db : DB) :
    Except ApiError (MaintenanceRow × DB) :=
  if db.assets.any (fun a => a.id == req.assetId) then
    let m : MaintenanceRow :=
      { id := db.nextMaintenanceId, assetId := req.assetId
        maintenanceType := req.maintenanceType, description := req.description
        cost := req.cost, performedDate := req.performedDate
        performedBy := req.performedBy, nextDueDate := req.nextDueDate
        createdAt := now }
    .ok (m, { db with
      maintenance := db.maintenance ++ [m]
      nextMaintenanceId := db.nextMaintenanceId + 1 })
  else
    .error (.notFound "Asset not found")

/-! ## Staff handlers (the staff source file) -/

/-- createStaff: INSERT INTO staff; UNIQUE employee_id, and UNIQUE email for
non-null emails, trigger 23505 -> alreadyExists. -/
def createStaff (now : Nat) (req : CreateStaffRequest) (db : DB) :
    Except ApiError (StaffRow × DB) :=
  if db.staff.any (fun s => s.employeeId == req.employeeId ||
      (req.email.isSome && s.email == req.email)) then
    .error (.alreadyExists "Staff member with this employee ID or email already exists")
  else
    let s : StaffRow :=
      { id := db.nextStaffId, employeeId := req.employeeId
        firstName := req.firstName, lastName := req.lastName
        email := req.email, phone := req.phone
        department := req.department, position := req.position
        hireDate := req.hireDate, status := req.status
        createdAt := now, updatedAt := now }
    .ok (s, { db with
      staff := db.staff ++ [s]
      nextStaffId := db.nextStaffId + 1 })

/-- getStaff: SELECT by id, notFound when no row matches. -/
def getStaff (i : Nat) (db : DB) : Except ApiError StaffRow :=
  match db.staff.find? (fun s => s.id == i) with
  | some s => .ok s
  | none => .error (.notFound "Staff member not found")

/-- The SET clause of the UPDATE in updateStaff, applied to one row. -/
def applyStaffUpdate (now : Nat) (req : UpdateStaffRequest) (s : StaffRow) :
    StaffRow :=
  { s with employeeId := req.employeeId, firstName := req.firstName
           lastName := req.lastName, email := req.email, phone := req.phone
           department := req.department, position := req.position
           hireDate := req.hireDate, status := req.status, updatedAt := now }

/-- updateStaff: UPDATE ... WHERE id RETURNING; null -> notFound; a
unique-constraint violation on employee_id or (non-null) email ->
alreadyExists. -/
def updateStaff (now : Nat) (req : UpdateStaffRequest) (db : DB) :
    Except ApiError (StaffRow × DB) :=
  match (db.staff.filter (fun s => s.id == req.id)).head? with
  | none => .error (.notFound "Staff member not found")
  | some s =>
    if db.staff.any (fun r => r.id != req.id && (r.employeeId == req.employeeId ||
        (req.email.isSome && r.email == req.email))) then
      .error (.alreadyExists "Staff member with this employee ID or email already exists")
    else
      .ok (applyStaffUpdate now req s, { db with
        staff := db.staff.map
          (fun r => if r.id == req.id then applyStaffUpdate now req r else r) })

/-- deleteStaff: DELETE ... RETURNING id, notFound when nothing was deleted;
inventory_transactions.staff_id references staff(id) with no ON DELETE
action, so deleting a staff row still referenced by a transaction raises a
foreign-key violation and deletes nothing. -/
def deleteStaff (i : Nat) (db : DB) : Except ApiError (Unit × DB) :=
  if db.staff.any (fun s => s.id == i) then
    if db.transactions.any (fun t => t.staffId == some i) then
      .error (.fkViolation "inventory_transactions_staff_id_fkey")
    else
      .ok ((), { db with staff := db.staff.filter (fun s => s.id != i) })
  else
    .error (.notFound "Staff member not found")

/-! ## Inventory report (getInventoryReport, report handlers) -/

/-- The scalar fields of the InventoryReport response (types.ts); the
categories breakdown is not modelled since no claim mentions it. -/
structure InventoryReport where
  totalProducts : Nat
  totalValue : Rat
  lowStockItems : Nat
  outOfStockItems : Nat
deriving DecidableEq, Repr

/-- The rows of products p JOIN inventory i ON p.id = i.product_id. -/
def joinRows (db : DB) : List (ProductRow × InventoryRow) :=
  db.products.flatMap (fun p =>
    (db.inventory.filter (fun ir => ir.productId == p.id)).map (fun ir => (p, ir)))

/-- getInventoryReport (report handlers, lines 91-145): COUNT(*) over
products; SUM(p.unit_price * i.quantity_on_hand) over the join; COUNT over
the join where quantity_on_hand <= reorder_level AND quantity_on_hand > 0;
COUNT over inventory where quantity_on_hand = 0. -/
def getInventoryReport (db : DB) : InventoryReport :=
  { totalProducts := db.products.length
    totalValue :=
      ((joinRows db).map
        (fun pr => pr.1.unitPrice * (pr.2.quantityOnHand : Rat))).sum
    lowStockItems :=
      ((joinRows db).filter
        (fun pr => pr.2.quantityOnHand ≤ pr.1.reorderLevel &&
                   pr.2.quantityOnHand > 0)).length
    outOfStockItems :=
      (db.inventory.filter (fun ir => ir.quantityOnHand == 0)).length }

/-- The quantity_on_hand of a product's inventory row (0 when the product
has no inventory row); used to state the spec's reading of the report. -/
def invQtyOf (inv : List InventoryRow) (pid : Nat) : Int :=
  match inv.find? (fun ir => ir.productId == pid) with
  | some ir => ir.quantityOnHand
  | none => 0

/-- Spec reading of totalValue: the sum over all products of unit_price
times the product's quantity_on_hand. -/
def specTotalValue (db : DB) : Rat :=
  (db.products.map (fun p => p.unitPrice * (invQtyOf db.inventory p.id : Rat))).sum

/-- Spec reading of lowStockItems: the number of products with
0 < quantity_on_hand <= reorder_level. -/
def specLowStock (db : DB) : Nat :=
  (db.products.filter (fun p =>
    0 < invQtyOf db.inventory p.id && invQtyOf db.inventory p.id ≤ p.reorderLevel)).length

/-! ## Reachable database states -/

/-- The database states reachable from the freshly migrated empty database
by the API write operations. -/
inductive Reachable : DB → Prop where
  | init : Reachable DB.empty
  | stepCreateProduct {db : DB} {now : Nat} {req : CreateProductRequest}
      {p : ProductRow} {db2 : DB} : Reachable db →
      createProduct now req db = .ok (p, db2) → Reachable db2
  | stepUpdateProduct {db : DB} {now : Nat} {req : UpdateProductRequest}
      {p : ProductRow} {db2 : DB} : Reachable db →
      updateProduct now req db = .ok (p, db2) → Reachable db2
  | stepDeleteProduct {db : DB} {i : Nat} {db2 : DB} : Reachable db →
      deleteProduct i db = .ok ((), db2) → Reachable db2
  | stepCreateTransaction {db : DB} {now : Nat} {req : CreateTransactionRequest}
      {t : TransactionRow} {db2 : DB} : Reachable db →
      createTransaction now req db = .ok (t, db2) → Reachable db2
  | stepCreateAsset {db : DB} {now : Nat} {req : CreateAssetRequest}
      {a : AssetRow} {db2 : DB} : Reachable db →
      createAsset now req db = .ok (a, db2) → Reachable db2
  | stepUpdateAsset {db : DB} {now : Nat} {req : UpdateAssetRequest}
      {a : AssetRow} {db2 : DB} : Reachable db →
      updateAsset now req db = .ok (a, db2) → Reachable db2
  | stepDeleteAsset {db : DB} {i : Nat} {db2 : DB} : Reachable db →
      deleteAsset i db = .ok ((), db2) → Reachable db2
  | stepCreateMaintenance {db : DB} {now : Nat} {req : CreateMaintenanceRequest}
      {m : MaintenanceRow} {db2 : DB} : Reachable db →
      createMaintenance now req db = .ok (m, db2) → Reachable db2
  | stepCreateStaff {db : DB} {now : Nat} {req : CreateStaffRequest}
      {s : StaffRow} {db2 : DB} : Reachable db →
      createStaff now req db = .ok (s, db2) → Reachable db2
  | stepUpdateStaff {db : DB} {now : Nat} {req : UpdateStaffRequest}
      {s : StaffRow} {db2 : DB} : Reachable db →
      updateStaff now req db = .ok (s, db2) → Reachable db2
  | stepDeleteStaff {db : DB} {i : Nat} {db2 : DB} : Reachable db →
      deleteStaff i db = .ok ((), db2) → Reachable db2

/-! ## Generic list helpers -/

/-- When a filter's first kept element is a, find? returns a. -/
theorem find?_of_filter_cons {α : Type} {f : α → Bool} {l rest : List α} {a : α}
    (h : l.filter f = a :: rest) : l.find? f = some a := by
  induction l with
  | nil => simp at h
  | cons b l ih =>
    by_cases hb : f b
    · rw [List.filter_cons_of_pos hb] at h
      injection h with h1 h2
      subst h1
      simp [List.find?_cons, hb]
    · rw [List.filter_cons_of_neg hb] at h
      simp only [List.find?_cons, hb]
      simpa using ih h

/-- find? over an append whose first part has no match. -/
theorem find?_append_of_none {α : Type} {f : α → Bool} {l₁ l₂ : List α}
    (h : l₁.find? f = none) : (l₁ ++ l₂).find? f = l₂.find? f := by
  rw [List.find?_append, h, Option.none_or]

/-! ## Success-case inversion lemmas for the write operations -/

/-- Inverting a successful createProduct: the sku was fresh, the returned row
is the inserted row, and the new state appends it plus the zeroed inventory
record. -/
theorem createProduct_ok_inv {now : Nat} {req : CreateProductRequest}
    {db : DB} {p : ProductRow} {db2 : DB}
    (h : createProduct now req db = .ok (p, db2)) :
    db.products.any (fun q => q.sku == req.sku) = false ∧
    p = { id := db.nextProductId, name := req.name
          description := req.description, sku := req.sku
          category := req.category, unitOfMeasure := req.unitOfMeasure
          unitPrice := req.unitPrice, reorderLevel := req.reorderLevel
          maxStockLevel := req.maxStockLevel
          createdAt := now, updatedAt := now } ∧
    db2 = { db with
      products := db.products ++ [p]
      inventory := db.inventory ++
        [{ id := db.nextInventoryId, productId := db.nextProductId
           quantityOnHand := 0, quantityReserved := 0
           quantityAvailable := 0 - 0, lastUpdated := now }]
      nextProductId := db.nextProductId + 1
      nextInventoryId := db.nextInventoryId + 1 } := by
  unfold createProduct at h
  split at h
  · exact absurd h (by simp)
  · rename_i hany
    simp only [Except.ok.injEq, Prod.mk.injEq] at h
    obtain ⟨hp, hdb⟩ := h
    refine ⟨by simpa using hany, hp.symm, ?_⟩
    rw [← hdb, hp]

/-- Inverting a successful updateProduct: some row matches the id, no other
row holds the new sku, and only the products table is rewritten. -/
theorem updateProduct_ok_inv {now : Nat} {req : UpdateProductRequest}
    {db : DB} {p : ProductRow} {db2 : DB}
    (h : updateProduct now req db = .ok (p, db2)) :
    (∃ q rest, db.products.filter (fun r => r.id == req.id) = q :: rest ∧
       p = applyProductUpdate now req q) ∧
    db2 = { db with
      products := db.products.map
        (fun q => if q.id == req.id then applyProductUpdate now req q else q) } := by
  unfold updateProduct at h
  split at h
  · exact absurd h (by simp)
  · rename_i q hq
    split at h
    · exact absurd h (by simp)
    · simp only [Except.ok.injEq, Prod.mk.injEq] at h
      obtain ⟨hp, hdb⟩ := h
      have hcons : ∃ rest, db.products.filter (fun r => r.id == req.id) = q :: rest := by
        cases hfil : db.products.filter (fun r => r.id == req.id) with
        | nil => rw [hfil] at hq; simp at hq
        | cons a rest =>
          rw [hfil] at hq
          simp at hq
          exact ⟨rest, by rw [hq]⟩
      obtain ⟨rest, hrest⟩ := hcons
      exact ⟨⟨q, rest, hrest, hp.symm⟩, hdb.symm⟩

/-- Inverting a successful deleteProduct: a row matched, and the product and
its cascaded inventory and transaction rows are removed. -/
theorem deleteProduct_ok_inv {i : Nat} {db : DB} {db2 : DB}
    (h : deleteProduct i db = .ok ((), db2)) :
    db.products.any (fun p => p.id == i) = true ∧
    db2 = { db with
      products := db.products.filter (fun p => p.id != i)
      inventory := db.inventory.filter (fun ir => ir.productId != i)
      transactions := db.transactions.filter (fun t => t.productId != i) } := by
  unfold deleteProduct at h
  split at h
  · rename_i hany
    simp only [Except.ok.injEq, Prod.mk.injEq] at h
    exact ⟨hany, h.2.symm⟩
  · exact absurd h (by simp)

/-- Inverting a successful createTransaction: the product was found, the
staff guards passed, the product had an inventory row whose first updated
copy stayed non-negative, and the result is the inserted row plus the
committed state. -/
theorem createTransaction_ok_inv {now : Nat} {req : CreateTransactionRequest}
    {db : DB} {t : TransactionRow} {db2 : DB}
    (h : createTransaction now req db = .ok (t, db2)) :
    (∃ p, db.products.find? (fun q => q.id == req.productId) = some p) ∧
    staffCheckFails req db = false ∧
    staffFkViolated req db = false ∧
    (∃ ir rest,
      db.inventory.filter (fun x => x.productId == req.productId) = ir :: rest ∧
      0 ≤ ir.quantityOnHand + quantityChange req) ∧
    t = newTransactionRow now req db ∧
    db2 = commitTransaction now req db := by
  unfold createTransaction at h
  split at h
  · exact absurd h (by simp)
  · rename_i p hfind
    split at h
    · exact absurd h (by simp)
    · rename_i hcheck
      split at h
      · exact absurd h (by simp)
      · rename_i hfk
        split at h
        · exact absurd h (by simp)
        · rename_i firstRow hhead
          split at h
          · exact absurd h (by simp)
          · rename_i hneg
            simp only [Except.ok.injEq, Prod.mk.injEq] at h
            obtain ⟨ht, hdb⟩ := h
            refine ⟨⟨p, hfind⟩, by simpa using hcheck, by simpa using hfk,
              ?_, ht.symm, hdb.symm⟩
            cases hfil : db.inventory.filter (fun x => x.productId == req.productId) with
            | nil => rw [hfil] at hhead; simp at hhead
            | cons ir rest =>
              rw [hfil] at hhead
              simp only [List.map_cons, List.head?_cons, Option.some.injEq] at hhead
              refine ⟨ir, rest, rfl, ?_⟩
              have : firstRow.quantityOnHand = ir.quantityOnHand + quantityChange req := by
                rw [← hhead]; rfl
              omega

/-- A successful createAsset touches only the assets table and its
sequence. -/
theorem createAsset_ok_frame {now : Nat} {req : CreateAssetRequest}
    {db : DB} {a : AssetRow} {db2 : DB}
    (h : createAsset now req db = .ok (a, db2)) :
    db2.products = db.products ∧ db2.inventory = db.inventory ∧
    db2.transactions = db.transactions ∧ db2.staff = db.staff ∧
    db2.nextProductId = db.nextProductId := by
  unfold createAsset at h
  split at h
  · exact absurd h (by simp)
  · simp only [Except.ok.injEq, Prod.mk.injEq] at h
    rw [← h.2]
    exact ⟨rfl, rfl, rfl, rfl, rfl⟩

/-- A successful updateAsset touches only the assets table. -/
theorem updateAsset_ok_frame {now : Nat} {req : UpdateAssetRequest}
    {db : DB} {a : AssetRow} {db2 : DB}
    (h : updateAsset now req db = .ok (a, db2)) :
    db2.products = db.products ∧ db2.inventory = db.inventory ∧
    db2.transactions = db.transactions ∧ db2.staff = db.staff ∧
    db2.nextProductId = db.nextProductId := by
  unfold updateAsset at h
  split at h
  · exact absurd h (by simp)
  · split at h
    · exact absurd h (by simp)
    · simp only [Except.ok.injEq, Prod.mk.injEq] at h
      rw [← h.2]
      exact ⟨rfl, rfl, rfl, rfl, rfl⟩

/-- A successful deleteAsset touches only the assets and asset_maintenance
tables. -/
theorem deleteAsset_ok_frame {i : Nat} {db : DB} {db2 : DB}
    (h : deleteAsset i db = .ok ((), db2)) :
    db2.products = db.products ∧ db2.inventory = db.inventory ∧
    db2.transactions = db.transactions ∧ db2.staff = db.staff ∧
    db2.nextProductId = db.nextProductId := by
  unfold deleteAsset at h
  split at h
  · simp only [Except.ok.injEq, Prod.mk.injEq] at h
    rw [← h.2]
    exact ⟨rfl, rfl, rfl, rfl, rfl⟩
  · exact absurd h (by simp)

/-- A successful createMaintenance touches only the asset_maintenance table
and its sequence. -/
theorem createMaintenance_ok_frame {now : Nat} {req : CreateMaintenanceRequest}
    {db : DB} {m : MaintenanceRow} {db2 : DB}
    (h : createMaintenance now req db = .ok (m, db2)) :
    db2.products = db.products ∧ db2.inventory = db.inventory ∧
    db2.transactions = db.transactions ∧ db2.staff = db.staff ∧
    db2.nextProductId = db.nextProductId := by
  unfold createMaintenance at h
  split at h
  · simp only [Except.ok.injEq, Prod.mk.injEq] at h
    rw [← h.2]
    exact ⟨rfl, rfl, rfl, rfl, rfl⟩
  · exact absurd h (by simp)

/-- A successful createStaff touches only the staff table and its
sequence. -/
theorem createStaff_ok_frame {now : Nat} {req : CreateStaffRequest}
    {db : DB} {s : StaffRow} {db2 : DB}
    (h : createStaff now req db = .ok (s, db2)) :
    db2.products = db.products ∧ db2.inventory = db.inventory ∧
    db2.transactions = db.transactions ∧
    db2.nextProductId = db.nextProductId := by
  unfold createStaff at h
  split at h
  · exact absurd h (by simp)
  · simp only [Except.ok.injEq, Prod.mk.injEq] at h
    rw [← h.2]
    exact ⟨rfl, rfl, rfl, rfl⟩

/-- A successful updateStaff touches only the staff table. -/
theorem updateStaff_ok_frame {now : Nat} {req : UpdateStaffRequest}
    {db : DB} {s : StaffRow} {db2 : DB}
    (h : updateStaff now req db = .ok (s, db2)) :
    db2.products = db.products ∧ db2.inventory = db.inventory ∧
    db2.transactions = db.transactions ∧
    db2.nextProductId = db.nextProductId := by
  unfold updateStaff at h
  split at h
  · exact absurd h (by simp)
  · split at h
    · exact absurd h (by simp)
    · simp only [Except.ok.injEq, Prod.mk.injEq] at h
      rw [← h.2]
      exact ⟨rfl, rfl, rfl, rfl⟩

/-- A successful deleteStaff touches only the staff table. -/
theorem deleteStaff_ok_frame {i : Nat} {db : DB} {db2 : DB}
    (h : deleteStaff i db = .ok ((), db2)) :
    db2.products = db.products ∧ db2.inventory = db.inventory ∧
    db2.transactions = db.transactions ∧
    db2.nextProductId = db.nextProductId := by
  unfold deleteStaff at h
  split at h
  · split at h
    · exact absurd h (by simp)
    · simp only [Except.ok.injEq, Prod.mk.injEq] at h
      rw [← h.2]
      exact ⟨rfl, rfl, rfl, rfl⟩
  · exact absurd h (by simp)

/-! ## The inventory invariants -/

/-- The inductive invariant behind the stock non-negativity claim: all
quantities on hand are non-negative, no two inventory rows share a product,
and every inventory row's product id is below the products sequence. -/
def InvGood (db : DB) : Prop :=
  (∀ ir ∈ db.inventory, 0 ≤ ir.quantityOnHand) ∧
  (db.inventory.map (fun ir => ir.productId)).Nodup ∧
  (∀ ir ∈ db.inventory, ir.productId < db.nextProductId)

/-- InvGood only looks at the inventory table and the products sequence. -/
theorem invGood_of_frame {db db2 : DB} (hinv : db2.inventory = db.inventory)
    (hnext : db2.nextProductId = db.nextProductId) (hg : InvGood db) :
    InvGood db2 := by
  unfold InvGood at *
  rw [hinv, hnext]
  exact hg

/-- A successful updateProduct leaves inventory and the products sequence
unchanged. -/
theorem updateProduct_ok_frame {now : Nat} {req : UpdateProductRequest}
    {db : DB} {p : ProductRow} {db2 : DB}
    (h : updateProduct now req db = .ok (p, db2)) :
    db2.inventory = db.inventory ∧ db2.transactions = db.transactions ∧
    db2.nextProductId = db.nextProductId := by
  obtain ⟨-, hdb⟩ := updateProduct_ok_inv h
  rw [hdb]
  exact ⟨rfl, rfl, rfl⟩

/-- createProduct preserves the invariant: the new inventory row enters
with quantity 0 and a fresh product id. -/
theorem invGood_createProduct {now : Nat} {req : CreateProductRequest}
    {db : DB} {p : ProductRow} {db2 : DB}
    (h : createProduct now req db = .ok (p, db2)) (hg : InvGood db) :
    InvGood db2 := by
  obtain ⟨-, -, hdb⟩ := createProduct_ok_inv h
  obtain ⟨h1, h2, h3⟩ := hg
  subst hdb
  refine ⟨?_, ?_, ?_⟩
  · intro ir hir
    simp only [List.mem_append, List.mem_singleton] at hir
    rcases hir with hir | rfl
    · exact h1 ir hir
    · simp
  · simp only [List.map_append, List.map_cons, List.map_nil, List.nodup_append]
    refine ⟨h2, by simp, ?_⟩
    intro x hx
    obtain ⟨ir, hir, rfl⟩ := List.mem_map.mp hx
    have hlt := h3 ir hir
    simp only [List.mem_singleton]
    omega
  · intro ir hir
    simp only [List.mem_append, List.mem_singleton] at hir
    rcases hir with hir | rfl
    · have := h3 ir hir
      simp only []
      omega
    · simp

/-- With no duplicated product ids in inventory, a filter by product id that
returns a first row returns nothing after it. -/
theorem filter_singleton_of_nodup {db : DB} {pid : Nat} {ir : InventoryRow}
    {rest : List InventoryRow}
    (h2 : (db.inventory.map (fun x => x.productId)).Nodup)
    (hfil : db.inventory.filter (fun x => x.productId == pid) = ir :: rest) :
    rest = [] := by
  have hnod : ((db.inventory.filter (fun x => x.productId == pid)).map
      (fun x => x.productId)).Nodup :=
    List.Nodup.sublist (List.Sublist.map _ (List.filter_sublist _)) h2
  rw [hfil] at hnod
  cases rest with
  | nil => rfl
  | cons r rest2 =>
    exfalso
    have hirm : ir ∈ db.inventory.filter (fun x => x.productId == pid) := by
      rw [hfil]; exact List.mem_cons_self _ _
    have hrm : r ∈ db.inventory.filter (fun x => x.productId == pid) := by
      rw [hfil]; exact List.mem_cons_of_mem _ (List.mem_cons_self _ _)
    have hir : ir.productId = pid := by simpa using (List.mem_filter.mp hirm).2
    have hr : r.productId = pid := by simpa using (List.mem_filter.mp hrm).2
    simp only [List.map_cons, List.nodup_cons, List.mem_cons, List.mem_map] at hnod
    exact hnod.1 (Or.inl (by rw [hir, hr]))

/-- createTransaction preserves the invariant: with at most one inventory
row per product, the guard on the first updated row covers every updated
row. -/
theorem invGood_createTransaction {now : Nat} {req : CreateTransactionRequest}
    {db : DB} {t : TransactionRow} {db2 : DB}
    (h : createTransaction now req db = .ok (t, db2)) (hg : InvGood db) :
    InvGood db2 := by
  obtain ⟨-, -, -, ⟨ir, rest, hfil, hpos⟩, -, hdb⟩ := createTransaction_ok_inv h
  obtain ⟨h1, h2, h3⟩ := hg
  have hrest := filter_singleton_of_nodup h2 hfil
  subst hrest
  subst hdb
  simp only [commitTransaction, InvGood]
  refine ⟨?_, ?_, ?_⟩
  · intro x hx
    simp only [List.mem_map] at hx
    obtain ⟨y, hy, rfl⟩ := hx
    by_cases hc : y.productId == req.productId
    · have hyf : y ∈ db.inventory.filter (fun z => z.productId == req.productId) :=
        List.mem_filter.mpr ⟨hy, hc⟩
      rw [hfil] at hyf
      simp only [List.mem_singleton] at hyf
      subst hyf
      rw [if_pos hc]
      simpa [applyQtyChange] using hpos
    · rw [if_neg hc]
      exact h1 y hy
  · have hmap : (db.inventory.map (fun z =>
        if z.productId == req.productId then
          applyQtyChange now (quantityChange req) z else z)).map
        (fun x => x.productId) = db.inventory.map (fun x => x.productId) := by
      rw [List.map_map]
      apply List.map_congr_left
      intro a ha
      by_cases hc : a.productId == req.productId
      · rw [Function.comp_apply, if_pos hc]; rfl
      · rw [Function.comp_apply, if_neg hc]
    rw [hmap]
    exact h2
  · intro x hx
    simp only [List.mem_map] at hx
    obtain ⟨y, hy, rfl⟩ := hx
    have hlt := h3 y hy
    by_cases hc : y.productId == req.productId
    · rw [if_pos hc]
      simpa [applyQtyChange] using hlt
    · rw [if_neg hc]
      exact hlt

/-- deleteProduct preserves the invariant: it only removes rows. -/
theorem invGood_deleteProduct {i : Nat} {db : DB} {db2 : DB}
    (h : deleteProduct i db = .ok ((), db2)) (hg : InvGood db) :
    InvGood db2 := by
  obtain ⟨-, hdb⟩ := deleteProduct_ok_inv h
  obtain ⟨h1, h2, h3⟩ := hg
  subst hdb
  refine ⟨?_, ?_, ?_⟩
  · intro ir hir
    exact h1 ir (List.mem_filter.mp hir).1
  · exact List.Nodup.sublist (List.Sublist.map _ (List.filter_sublist _)) h2
  · intro ir hir
    exact h3 ir (List.mem_filter.mp hir).1

/-- Every reachable database state satisfies the inventory invariant. -/
theorem invGood_reachable {db : DB} (h : Reachable db) : InvGood db := by
  induction h with
  | init => exact ⟨by simp [DB.empty], by simp [DB.empty], by simp [DB.empty]⟩
  | stepCreateProduct hr hok ih => exact invGood_createProduct hok ih
  | stepUpdateProduct hr hok ih =>
    obtain ⟨hi, -, hn⟩ := updateProduct_ok_frame hok
    exact invGood_of_frame hi hn ih
  | stepDeleteProduct hr hok ih => exact invGood_deleteProduct hok ih
  | stepCreateTransaction hr hok ih => exact invGood_createTransaction hok ih
  | stepCreateAsset hr hok ih =>
    obtain ⟨-, hi, -, -, hn⟩ := createAsset_ok_frame hok
    exact invGood_of_frame hi hn ih
  | stepUpdateAsset hr hok ih =>
    obtain ⟨-, hi, -, -, hn⟩ := updateAsset_ok_frame hok
    exact invGood_of_frame hi hn ih
  | stepDeleteAsset hr hok ih =>
    obtain ⟨-, hi, -, -, hn⟩ := deleteAsset_ok_frame hok
    exact invGood_of_frame hi hn ih
  | stepCreateMaintenance hr hok ih =>
    obtain ⟨-, hi, -, -, hn⟩ := createMaintenance_ok_frame hok
    exact invGood_of_frame hi hn ih
  | stepCreateStaff hr hok ih =>
    obtain ⟨-, hi, -, hn⟩ := createStaff_ok_frame hok
    exact invGood_of_frame hi hn ih
  | stepUpdateStaff hr hok ih =>
    obtain ⟨-, hi, -, hn⟩ := updateStaff_ok_frame hok
    exact invGood_of_frame hi hn ih
  | stepDeleteStaff hr hok ih =>
    obtain ⟨-, hi, -, hn⟩ := deleteStaff_ok_frame hok
    exact invGood_of_frame hi hn ih

/-- The generated-column invariant: quantity_available equals
quantity_on_hand - quantity_reserved on every inventory row. -/
def GenGood (db : DB) : Prop :=
  ∀ ir ∈ db.inventory, ir.quantityAvailable =
    ir.quantityOnHand - ir.quantityReserved

/-- GenGood only looks at the inventory table. -/
theorem genGood_of_frame {db db2 : DB} (hinv : db2.inventory = db.inventory)
    (hg : GenGood db) : GenGood db2 := by
  unfold GenGood at *
  rw [hinv]
  exact hg

/-- Every reachable state satisfies the generated-column invariant: every
INSERT and UPDATE of inventory recomputes quantity_available. -/
theorem genGood_reachable {db : DB} (h : Reachable db) : GenGood db := by
  induction h with
  | init => intro ir hir; simp [DB.empty] at hir
  | stepCreateProduct hr hok ih =>
    obtain ⟨-, -, hdb⟩ := createProduct_ok_inv hok
    subst hdb
    intro ir hir
    simp only [List.mem_append, List.mem_singleton] at hir
    rcases hir with hir | rfl
    · exact ih ir hir
    · rfl
  | stepUpdateProduct hr hok ih =>
    exact genGood_of_frame (updateProduct_ok_frame hok).1 ih
  | stepDeleteProduct hr hok ih =>
    obtain ⟨-, hdb⟩ := deleteProduct_ok_inv hok
    subst hdb
    intro ir hir
    exact ih ir (List.mem_filter.mp hir).1
  | stepCreateTransaction hr hok ih =>
    obtain ⟨-, -, -, -, -, hdb⟩ := createTransaction_ok_inv hok
    subst hdb
    intro ir hir
    simp only [commitTransaction, List.mem_map] at hir
    obtain ⟨y, hy, rfl⟩ := hir
    split
    · simp [applyQtyChange]
    · exact ih y hy
  | stepCreateAsset hr hok ih =>
    exact genGood_of_frame (createAsset_ok_frame hok).2.1 ih
  | stepUpdateAsset hr hok ih =>
    exact genGood_of_frame (updateAsset_ok_frame hok).2.1 ih
  | stepDeleteAsset hr hok ih =>
    exact genGood_of_frame (deleteAsset_ok_frame hok).2.1 ih
  | stepCreateMaintenance hr hok ih =>
    exact genGood_of_frame (createMaintenance_ok_frame hok).2.1 ih
  | stepCreateStaff hr hok ih =>
    exact genGood_of_frame (createStaff_ok_frame hok).2.1 ih
  | stepUpdateStaff hr hok ih =>
    exact genGood_of_frame (updateStaff_ok_frame hok).2.1 ih
  | stepDeleteStaff hr hok ih =>
    exact genGood_of_frame (deleteStaff_ok_frame hok).2.1 ih

/-! ## Claim theorems -/

/-- C2: In every database state reachable from the initial empty database by
any sequence of the API operations (createProduct, updateProduct,
deleteProduct, createTransaction, and the asset and staff operations),
every inventory row has quantity_on_hand >= 0. -/
theorem c2_quantity_on_hand_nonneg (db : DB) (h : Reachable db) :
    ∀ ir ∈ db.inventory, 0 ≤ ir.quantityOnHand :=
  (invGood_reachable h).1

/-- Concrete createProduct request used by witness states. -/
def wreq1 : CreateProductRequest :=
  { name := "Bolt", description := none, sku := "SKU-2", category := none
    unitOfMeasure := "box", unitPrice := 2, reorderLevel := 1
    maxStockLevel := none }

/-- The product row created from wreq1 on the empty database at time 3. -/
def wprod1 : ProductRow :=
  { id := 1, name := "Bolt", description := none, sku := "SKU-2"
    category := none, unitOfMeasure := "box", unitPrice := 2
    reorderLevel := 1, maxStockLevel := none, createdAt := 3, updatedAt := 3 }

/-- The database after creating wreq1 on the empty database at time 3. -/
def wdb1 : DB :=
  { products := [wprod1]
    inventory := [{ id := 1, productId := 1, quantityOnHand := 0
                    quantityReserved := 0, quantityAvailable := 0
                    lastUpdated := 3 }]
    transactions := [], assets := [], maintenance := [], staff := []
    nextProductId := 2, nextInventoryId := 2, nextTransactionId := 1
    nextAssetId := 1, nextMaintenanceId := 1, nextStaffId := 1 }

/-- A concrete RECEIVE transaction request against product 1. -/
def wreq2 : CreateTransactionRequest :=
  { productId := 1, transactionType := .receive, quantity := 7
    referenceNumber := none, notes := none, createdBy := none
    staffId := none }

/-- The transaction row recorded for wreq2 at time 4. -/
def wtx2 : TransactionRow :=
  { id := 1, productId := 1, transactionType := .receive, quantity := 7
    referenceNumber := none, notes := none, createdAt := 4
    createdBy := none, staffId := none }

/-- The database after applying wreq2 to wdb1 at time 4. -/
def wdb2 : DB :=
  { wdb1 with
    inventory := [{ id := 1, productId := 1, quantityOnHand := 7
                    quantityReserved := 0, quantityAvailable := 7
                    lastUpdated := 4 }]
    transactions := [wtx2]
    nextTransactionId := 2 }

/-- wdb1 is reachable: one createProduct step from the empty database. -/
theorem wdb1_reachable : Reachable wdb1 :=
  Reachable.stepCreateProduct Reachable.init
    (rfl : createProduct 3 wreq1 DB.empty = .ok (wprod1, wdb1))

/-- wdb2 is reachable: a createTransaction step from wdb1. -/
theorem wdb2_reachable : Reachable wdb2 :=
  Reachable.stepCreateTransaction wdb1_reachable
    (rfl : createTransaction 4 wreq2 wdb1 = .ok (wtx2, wdb2))

/-- Witness for C2 at the inventory row of the concrete reachable state
wdb2. -/
theorem c2_quantity_on_hand_nonneg_witness :
    0 ≤ ({ id := 1, productId := 1, quantityOnHand := 7, quantityReserved := 0
           quantityAvailable := 7, lastUpdated := 4 } : InventoryRow).quantityOnHand :=
  c2_quantity_on_hand_nonneg wdb2 wdb2_reachable _ (by decide)

/-- C8: In every reachable database state, each inventory row satisfies
quantity_available = quantity_on_hand - quantity_reserved; the reachability
induction covers every operation that writes either column. -/
theorem c8_generated_column (db : DB) (h : Reachable db) :
    ∀ ir ∈ db.inventory, ir.quantityAvailable =
      ir.quantityOnHand - ir.quantityReserved :=
  genGood_reachable h

/-- Witness for C8 at the inventory row of the concrete reachable state
wdb1. -/
theorem c8_generated_column_witness :
    ({ id := 1, productId := 1, quantityOnHand := 0, quantityReserved := 0
       quantityAvailable := 0, lastUpdated := 3 } : InventoryRow).quantityAvailable =
    ({ id := 1, productId := 1, quantityOnHand := 0, quantityReserved := 0
       quantityAvailable := 0, lastUpdated := 3 } : InventoryRow).quantityOnHand -
    ({ id := 1, productId := 1, quantityOnHand := 0, quantityReserved := 0
       quantityAvailable := 0, lastUpdated := 3 } : InventoryRow).quantityReserved :=
  c8_generated_column wdb1 wdb1_reachable _ (by decide)

/-- The staff guards both pass whenever every provided staffId has a staff
row. -/
theorem staff_guards_pass {req : CreateTransactionRequest} {db : DB}
    (hstaff : ∀ s, req.staffId = some s →
      db.staff.any (fun st => st.id == s) = true) :
    staffCheckFails req db = false ∧ staffFkViolated req db = false := by
  unfold staffCheckFails staffFkViolated
  cases hs : req.staffId with
  | none => exact ⟨rfl, rfl⟩
  | some s => simp [hstaff s hs]

/-- C1: For a database whose product exists (with its single inventory row)
and whose provided staffId (if any) exists, a transaction whose quantity
change would drive quantity_on_hand negative fails with invalidArgument and
leaves the database unchanged. -/
theorem c1_negative_stock_rejected (now : Nat) (req : CreateTransactionRequest)
    (db : DB) (ir : InventoryRow)
    (hprod : db.products.any (fun p => p.id == req.productId) = true)
    (hstaff : ∀ s, req.staffId = some s →
      db.staff.any (fun st => st.id == s) = true)
    (hinv : db.inventory.filter (fun x => x.productId == req.productId) = [ir])
    (hneg : ir.quantityOnHand + quantityChange req < 0) :
    createTransaction now req db =
      .error (.invalidArgument "Transaction would result in negative inventory") ∧
    dbAfter (createTransaction now req db) db = db := by
  have hfind := List.find?_isSome.mpr (List.any_eq_true.mp hprod)
  obtain ⟨p, hp⟩ := Option.isSome_iff_exists.mp hfind
  obtain ⟨hcheck, hfk⟩ := staff_guards_pass hstaff
  have hmain : createTransaction now req db =
      .error (.invalidArgument "Transaction would result in negative inventory") := by
    unfold createTransaction
    rw [hp, hcheck, hfk, hinv]
    simp only [Bool.false_eq_true, if_false, List.map_cons, List.map_nil,
      List.head?_cons]
    rw [if_pos (by simpa [applyQtyChange] using hneg)]
  exact ⟨hmain, by rw [hmain]; rfl⟩

/-- Witness for C1: issuing 5 units of product 1 while none are on hand is
rejected with invalidArgument and changes nothing. -/
theorem c1_negative_stock_rejected_witness :
    createTransaction 5
        { productId := 1, transactionType := .issue, quantity := 5
          referenceNumber := none, notes := none, createdBy := none
          staffId := none } wdb1 =
      .error (.invalidArgument "Transaction would result in negative inventory") ∧
    dbAfter (createTransaction 5
        { productId := 1, transactionType := .issue, quantity := 5
          referenceNumber := none, notes := none, createdBy := none
          staffId := none } wdb1) wdb1 = wdb1 :=
  c1_negative_stock_rejected 5 _ wdb1
    { id := 1, productId := 1, quantityOnHand := 0, quantityReserved := 0
      quantityAvailable := 0, lastUpdated := 3 }
    (by decide) (fun s h => nomatch h) (by decide) (by decide)

/-- C9: a successful createProduct also inserts exactly one inventory row
for the new product, with quantity_on_hand = 0 and quantity_reserved = 0
(hence the generated quantity_available = 0). -/
theorem c9_initial_inventory (now : Nat) (req : CreateProductRequest)
    (db : DB) (p : ProductRow) (db2 : DB)
    (h : createProduct now req db = .ok (p, db2))
    (hfresh : ∀ ir ∈ db.inventory, ir.productId ≠ db.nextProductId) :
    p.id = db.nextProductId ∧
    db2.inventory = db.inventory ++
      [{ id := db.nextInventoryId, productId := p.id, quantityOnHand := 0
         quantityReserved := 0, quantityAvailable := 0 - 0
         lastUpdated := now }] ∧
    (db2.inventory.filter (fun ir => ir.productId == p.id)).length = 1 := by
  obtain ⟨-, hp, hdb⟩ := createProduct_ok_inv h
  subst hdb
  subst hp
  refine ⟨rfl, rfl, ?_⟩
  rw [List.filter_append]
  have hnil : db.inventory.filter
      (fun ir => ir.productId == db.nextProductId) = [] := by
    rw [List.filter_eq_nil_iff]
    intro ir hir
    simpa using hfresh ir hir
  simp [hnil]

/-- Witness for C9: creating a product on the empty database. -/
theorem c9_initial_inventory_witness :
    wprod1.id = DB.empty.nextProductId ∧
    wdb1.inventory = DB.empty.inventory ++
      [{ id := DB.empty.nextInventoryId, productId := wprod1.id
         quantityOnHand := 0, quantityReserved := 0
         quantityAvailable := 0 - 0, lastUpdated := 3 }] ∧
    (wdb1.inventory.filter (fun ir => ir.productId == wprod1.id)).length = 1 :=
  c9_initial_inventory 3 wreq1 DB.empty wprod1 wdb1 rfl
    (fun ir hir => by simp [DB.empty] at hir)

/-- C6: the Product returned by a successful createProduct, and a subsequent
getProduct with the returned id, both carry exactly the submitted fields. -/
theorem c6_create_read_roundtrip (now : Nat) (req : CreateProductRequest)
    (db : DB) (p : ProductRow) (db2 : DB)
    (h : createProduct now req db = .ok (p, db2))
    (hfresh : ∀ q ∈ db.products, q.id ≠ db.nextProductId) :
    p.name = req.name ∧ p.description = req.description ∧ p.sku = req.sku ∧
    p.category = req.category ∧ p.unitOfMeasure = req.unitOfMeasure ∧
    p.unitPrice = req.unitPrice ∧ p.reorderLevel = req.reorderLevel ∧
    p.maxStockLevel = req.maxStockLevel ∧
    getProduct p.id db2 = .ok p := by
  obtain ⟨-, hp, hdb⟩ := createProduct_ok_inv h
  subst hdb
  subst hp
  refine ⟨rfl, rfl, rfl, rfl, rfl, rfl, rfl, rfl, ?_⟩
  unfold getProduct
  have hnone : db.products.find?
      (fun q => q.id == db.nextProductId) = none := by
    rw [List.find?_eq_none]
    intro q hq
    simpa using hfresh q hq
  rw [find?_append_of_none hnone]
  simp [List.find?_cons]

/-- Witness for C6: creating a product on the empty database and reading it
back. -/
theorem c6_create_read_roundtrip_witness :
    wprod1.name = wreq1.name ∧ wprod1.description = wreq1.description ∧
    wprod1.sku = wreq1.sku ∧ wprod1.category = wreq1.category ∧
    wprod1.unitOfMeasure = wreq1.unitOfMeasure ∧
    wprod1.unitPrice = wreq1.unitPrice ∧
    wprod1.reorderLevel = wreq1.reorderLevel ∧
    wprod1.maxStockLevel = wreq1.maxStockLevel ∧
    getProduct wprod1.id wdb1 = .ok wprod1 :=
  c6_create_read_roundtrip 3 wreq1 DB.empty wprod1 wdb1 rfl
    (fun q hq => by simp [DB.empty] at hq)

/-- C10: on success, createTransaction changes the product's
quantity_on_hand by exactly the signed change of the transaction type
(+quantity for RECEIVE, -quantity for ISSUE, +quantity for ADJUSTMENT) and
no other inventory row; and for every integer quantity it succeeds exactly
when the product exists, any provided staffId exists, and the resulting
quantity is non-negative - no positivity precondition on quantity. -/
theorem c10_transaction_delta (now : Nat) (req : CreateTransactionRequest)
    (db : DB) (ir : InventoryRow)
    (hinv : db.inventory.filter (fun x => x.productId == req.productId) = [ir]) :
    (quantityChange req = match req.transactionType with
      | .receive => req.quantity
      | .issue => -req.quantity
      | .adjustment => req.quantity) ∧
    (∀ t db2, createTransaction now req db = .ok (t, db2) →
      db2.inventory.filter (fun x => x.productId == req.productId) =
        [applyQtyChange now (quantityChange req) ir] ∧
      (applyQtyChange now (quantityChange req) ir).quantityOnHand =
        ir.quantityOnHand + quantityChange req ∧
      (∀ x ∈ db.inventory, x.productId ≠ req.productId → x ∈ db2.inventory)) ∧
    ((∃ t db2, createTransaction now req db = .ok (t, db2)) ↔
      (db.products.any (fun q => q.id == req.productId) = true ∧
       (∀ s, req.staffId = some s →
         db.staff.any (fun st => st.id == s) = true) ∧
       0 ≤ ir.quantityOnHand + quantityChange req)) := by
  have hirmem : ir ∈ db.inventory.filter
      (fun x => x.productId == req.productId) := by
    rw [hinv]; exact List.mem_singleton.mpr rfl
  have hirpid : (ir.productId == req.productId) = true :=
    (List.mem_filter.mp hirmem).2
  refine ⟨by unfold quantityChange; cases h : req.transactionType <;> rfl, ?_, ?_⟩
  · intro t db2 h
    obtain ⟨-, -, -, -, -, hdb⟩ := createTransaction_ok_inv h
    subst hdb
    refine ⟨?_, rfl, ?_⟩
    · simp only [commitTransaction]
      rw [List.filter_map]
      have hcong : db.inventory.filter
          ((fun x => x.productId == req.productId) ∘
            (fun z => if z.productId == req.productId then
              applyQtyChange now (quantityChange req) z else z)) =
          db.inventory.filter (fun x => x.productId == req.productId) := by
        apply List.filter_congr
        intro a ha
        by_cases hc : a.productId == req.productId
        · rw [Function.comp_apply, if_pos hc]
          rfl
        · rw [Function.comp_apply, if_neg hc]
      rw [hcong, hinv, List.map_cons, List.map_nil, if_pos hirpid]
    · intro x hx hne
      simp only [commitTransaction, List.mem_map]
      refine ⟨x, hx, ?_⟩
      rw [if_neg (by simpa using hne)]
  · constructor
    · rintro ⟨t, db2, h⟩
      obtain ⟨⟨p, hp⟩, -, hfk, ⟨ir2, rest2, hfil2, hpos2⟩, -, -⟩ :=
        createTransaction_ok_inv h
      refine ⟨List.any_eq_true.mpr (List.find?_isSome.mp (by rw [hp]; rfl)),
        ?_, ?_⟩
      · intro s hs
        simp only [staffFkViolated, hs, Bool.not_eq_false'] at hfk
        exact hfk
      · rw [hinv] at hfil2
        injection hfil2 with h1 h2
        rw [h1]
        exact hpos2
    · rintro ⟨hprod, hstaff, hpos⟩
      have hfind := List.find?_isSome.mpr (List.any_eq_true.mp hprod)
      obtain ⟨p, hp⟩ := Option.isSome_iff_exists.mp hfind
      obtain ⟨hcheck, hfk⟩ := staff_guards_pass hstaff
      refine ⟨newTransactionRow now req db, commitTransaction now req db, ?_⟩
      unfold createTransaction
      rw [hp, hcheck, hfk, hinv]
      simp only [Bool.false_eq_true, if_false, List.map_cons, List.map_nil,
        List.head?_cons]
      rw [if_neg (by simp [applyQtyChange]; omega)]

/-- The single inventory row of wdb1. -/
def wirow : InventoryRow :=
  { id := 1, productId := 1, quantityOnHand := 0, quantityReserved := 0
    quantityAvailable := 0, lastUpdated := 3 }

/-- Witness for C10 on wdb1 and a RECEIVE of 7 units of product 1. -/
theorem c10_transaction_delta_witness :
    (quantityChange wreq2 = match wreq2.transactionType with
      | .receive => wreq2.quantity
      | .issue => -wreq2.quantity
      | .adjustment => wreq2.quantity) ∧
    (∀ t db2, createTransaction 4 wreq2 wdb1 = .ok (t, db2) →
      db2.inventory.filter (fun x => x.productId == wreq2.productId) =
        [applyQtyChange 4 (quantityChange wreq2) wirow] ∧
      (applyQtyChange 4 (quantityChange wreq2) wirow).quantityOnHand =
        wirow.quantityOnHand + quantityChange wreq2 ∧
      (∀ x ∈ wdb1.inventory, x.productId ≠ wreq2.productId →
        x ∈ db2.inventory)) ∧
    ((∃ t db2, createTransaction 4 wreq2 wdb1 = .ok (t, db2)) ↔
      (wdb1.products.any (fun q => q.id == wreq2.productId) = true ∧
       (∀ s, wreq2.staffId = some s →
         wdb1.staff.any (fun st => st.id == s) = true) ∧
       0 ≤ wirow.quantityOnHand + quantityChange wreq2)) :=
  c10_transaction_delta 4 wreq2 wdb1 wirow (by decide)

/-- C4: getProduct, updateProduct, deleteProduct and the asset and staff
analogues respond with a not-found error when no row has the addressed
id. -/
theorem c4_missing_id_not_found (db : DB) (now : Nat)
    (reqP : UpdateProductRequest) (reqA : UpdateAssetRequest)
    (reqS : UpdateStaffRequest)
    (hP : ∀ p ∈ db.products, p.id ≠ reqP.id)
    (hA : ∀ a ∈ db.assets, a.id ≠ reqA.id)
    (hS : ∀ s ∈ db.staff, s.id ≠ reqS.id) :
    getProduct reqP.id db = .error (.notFound "Product not found") ∧
    updateProduct now reqP db = .error (.notFound "Product not found") ∧
    deleteProduct reqP.id db = .error (.notFound "Product not found") ∧
    getAsset reqA.id db = .error (.notFound "Asset not found") ∧
    updateAsset now reqA db = .error (.notFound "Asset not found") ∧
    deleteAsset reqA.id db = .error (.notFound "Asset not found") ∧
    getStaff reqS.id db = .error (.notFound "Staff member not found") ∧
    updateStaff now reqS db = .error (.notFound "Staff member not found") ∧
    deleteStaff reqS.id db = .error (.notFound "Staff member not found") := by
  have hPf : db.products.find? (fun p => p.id == reqP.id) = none := by
    rw [List.find?_eq_none]; intro p hp; simpa using hP p hp
  have hPfil : db.products.filter (fun p => p.id == reqP.id) = [] := by
    rw [List.filter_eq_nil_iff]; intro p hp; simpa using hP p hp
  have hPany : db.products.any (fun p => p.id == reqP.id) = false := by
    rw [List.any_eq_false]; intro p hp; simpa using hP p hp
  have hAf : db.assets.find? (fun a => a.id == reqA.id) = none := by
    rw [List.find?_eq_none]; intro a ha; simpa using hA a ha
  have hAfil : db.assets.filter (fun a => a.id == reqA.id) = [] := by
    rw [List.filter_eq_nil_iff]; intro a ha; simpa using hA a ha
  have hAany : db.assets.any (fun a => a.id == reqA.id) = false := by
    rw [List.any_eq_false]; intro a ha; simpa using hA a ha
  have hSf : db.staff.find? (fun s => s.id == reqS.id) = none := by
    rw [List.find?_eq_none]; intro s hs; simpa using hS s hs
  have hSfil : db.staff.filter (fun s => s.id == reqS.id) = [] := by
    rw [List.filter_eq_nil_iff]; intro s hs; simpa using hS s hs
  have hSany : db.staff.any (fun s => s.id == reqS.id) = false := by
    rw [List.any_eq_false]; intro s hs; simpa using hS s hs
  refine ⟨?_, ?_, ?_, ?_, ?_, ?_, ?_, ?_, ?_⟩
  · unfold getProduct; rw [hPf]
  · unfold updateProduct; rw [hPfil]; rfl
  · unfold deleteProduct; rw [hPany]; rfl
  · unfold getAsset; rw [hAf]
  · unfold updateAsset; rw [hAfil]; rfl
  · unfold deleteAsset; rw [hAany]; rfl
  · unfold getStaff; rw [hSf]
  · unfold updateStaff; rw [hSfil]; rfl
  · unfold deleteStaff; rw [hSany]; rfl

/-- Witness for C4 on the empty database with id 9 requests. -/
theorem c4_missing_id_not_found_witness :
    getProduct 9 DB.empty = .error (.notFound "Product not found") ∧
    updateProduct 0
      { id := 9, name := "N", description := none, sku := "S9"
        category := none, unitOfMeasure := "u", unitPrice := 1
        reorderLevel := 0, maxStockLevel := none } DB.empty =
      .error (.notFound "Product not found") ∧
    deleteProduct 9 DB.empty = .error (.notFound "Product not found") ∧
    getAsset 9 DB.empty = .error (.notFound "Asset not found") ∧
    updateAsset 0
      { id := 9, assetTag := "T9", name := "A", description := none
        category := none, brand := none, model := none, serialNumber := none
        purchaseDate := none, purchasePrice := none, currentValue := none
        location := none, status := .active, assignedTo := none
        warrantyExpiry := none } DB.empty =
      .error (.notFound "Asset not found") ∧
    deleteAsset 9 DB.empty = .error (.notFound "Asset not found") ∧
    getStaff 9 DB.empty = .error (.notFound "Staff member not found") ∧
    updateStaff 0
      { id := 9, employeeId := "E9", firstName := "F", lastName := "L"
        email := none, phone := none, department := none, position := none
        hireDate := none, status := .active } DB.empty =
      .error (.notFound "Staff member not found") ∧
    deleteStaff 9 DB.empty = .error (.notFound "Staff member not found") :=
  c4_missing_id_not_found DB.empty 0 _ _ _
    (fun p hp => by simp [DB.empty] at hp)
    (fun a ha => by simp [DB.empty] at ha)
    (fun s hs => by simp [DB.empty] at hs)

/-- C5: updateProduct on an existing id can only rewrite the listed fields:
the addressed row keeps its id and createdAt, every other products row is
unchanged (in both directions), and the inventory and
inventory_transactions tables are untouched - whether the update succeeds
or fails on a sku conflict. -/
theorem c5_update_frame (now : Nat) (req : UpdateProductRequest) (db : DB)
    (p : ProductRow)
    (hrow : db.products.filter (fun q => q.id == req.id) = [p]) :
    (dbAfter (updateProduct now req db) db).inventory = db.inventory ∧
    (dbAfter (updateProduct now req db) db).transactions = db.transactions ∧
    (∀ q ∈ (dbAfter (updateProduct now req db) db).products,
      q.id = req.id → q.id = p.id ∧ q.createdAt = p.createdAt) ∧
    (∀ q ∈ db.products, q.id ≠ req.id →
      q ∈ (dbAfter (updateProduct now req db) db).products) ∧
    (∀ q ∈ (dbAfter (updateProduct now req db) db).products, q.id ≠ req.id →
      q ∈ db.products) := by
  have hpmem : p ∈ db.products.filter (fun q => q.id == req.id) := by
    rw [hrow]; exact List.mem_singleton.mpr rfl
  have hpid : p.id = req.id := by
    simpa using (List.mem_filter.mp hpmem).2
  cases hres : updateProduct now req db with
  | error e =>
    simp only [dbAfter]
    refine ⟨trivial, trivial, ?_, fun q hq _ => hq, fun q hq _ => hq⟩
    intro q hq hqid
    have hqf : q ∈ db.products.filter (fun r => r.id == req.id) :=
      List.mem_filter.mpr ⟨hq, by simpa using hqid⟩
    rw [hrow, List.mem_singleton] at hqf
    rw [hqf]
    exact ⟨rfl, rfl⟩
  | ok pr =>
    obtain ⟨prow, db2⟩ := pr
    obtain ⟨-, hdb⟩ := updateProduct_ok_inv hres
    subst hdb
    simp only [dbAfter]
    refine ⟨trivial, trivial, ?_, ?_, ?_⟩
    · intro q hq hqid
      simp only [List.mem_map] at hq
      obtain ⟨y, hy, rfl⟩ := hq
      by_cases hc : y.id == req.id
      · rw [if_pos hc] at hqid ⊢
        have hyf : y ∈ db.products.filter (fun r => r.id == req.id) :=
          List.mem_filter.mpr ⟨hy, hc⟩
        rw [hrow, List.mem_singleton] at hyf
        rw [hyf]
        exact ⟨rfl, rfl⟩
      · rw [if_neg hc] at hqid ⊢
        have hqf : y ∈ db.products.filter (fun r => r.id == req.id) :=
          List.mem_filter.mpr ⟨hy, by simpa using hqid⟩
        rw [hrow, List.mem_singleton] at hqf
        rw [hqf]
        exact ⟨rfl, rfl⟩
    · intro q hq hne
      simp only [List.mem_map]
      exact ⟨q, hq, by rw [if_neg (by simpa using hne)]⟩
    · intro q hq hne
      simp only [List.mem_map] at hq
      obtain ⟨y, hy, rfl⟩ := hq
      by_cases hc : y.id == req.id
      · rw [if_pos hc] at hne
        exact absurd (show (applyProductUpdate now req y).id = req.id by
          simpa [applyProductUpdate] using hc) hne
      · rw [if_neg hc]
        exact hy

/-- Witness for C5: updating product 1 of wdb1. -/
theorem c5_update_frame_witness :
    (dbAfter (updateProduct 6
      { id := 1, name := "Bolt2", description := none, sku := "SKU-2b"
        category := none, unitOfMeasure := "box", unitPrice := 3
        reorderLevel := 2, maxStockLevel := some 50 } wdb1) wdb1).inventory =
      wdb1.inventory ∧
    (dbAfter (updateProduct 6
      { id := 1, name := "Bolt2", description := none, sku := "SKU-2b"
        category := none, unitOfMeasure := "box", unitPrice := 3
        reorderLevel := 2, maxStockLevel := some 50 } wdb1) wdb1).transactions =
      wdb1.transactions ∧
    (∀ q ∈ (dbAfter (updateProduct 6
      { id := 1, name := "Bolt2", description := none, sku := "SKU-2b"
        category := none, unitOfMeasure := "box", unitPrice := 3
        reorderLevel := 2, maxStockLevel := some 50 } wdb1) wdb1).products,
      q.id = 1 → q.id = wprod1.id ∧ q.createdAt = wprod1.createdAt) ∧
    (∀ q ∈ wdb1.products, q.id ≠ 1 →
      q ∈ (dbAfter (updateProduct 6
        { id := 1, name := "Bolt2", description := none, sku := "SKU-2b"
          category := none, unitOfMeasure := "box", unitPrice := 3
          reorderLevel := 2, maxStockLevel := some 50 } wdb1) wdb1).products) ∧
    (∀ q ∈ (dbAfter (updateProduct 6
      { id := 1, name := "Bolt2", description := none, sku := "SKU-2b"
        category := none, unitOfMeasure := "box", unitPrice := 3
        reorderLevel := 2, maxStockLevel := some 50 } wdb1) wdb1).products,
      q.id ≠ 1 → q ∈ wdb1.products) :=
  c5_update_frame 6
    { id := 1, name := "Bolt2", description := none, sku := "SKU-2b"
      category := none, unitOfMeasure := "box", unitPrice := 3
      reorderLevel := 2, maxStockLevel := some 50 } wdb1 wprod1 (by decide)

/-- When every product has exactly one inventory row, the summed join value
equals the per-product sum of unit_price times quantity_on_hand. -/
theorem join_value_sum (inv : List InventoryRow) :
    ∀ ps : List ProductRow,
    (∀ p ∈ ps, ∃ ir, inv.filter (fun x => x.productId == p.id) = [ir]) →
    ((ps.flatMap (fun p => (inv.filter (fun ir => ir.productId == p.id)).map
        (fun ir => (p, ir)))).map
      (fun pr => pr.1.unitPrice * (pr.2.quantityOnHand : Rat))).sum =
    (ps.map (fun p => p.unitPrice * (invQtyOf inv p.id : Rat))).sum := by
  intro ps
  induction ps with
  | nil => intro h; rfl
  | cons p ps ih =>
    intro h
    obtain ⟨ir, hir⟩ := h p (List.mem_cons_self _ _)
    have hfind : inv.find? (fun x => x.productId == p.id) = some ir :=
      find?_of_filter_cons hir
    rw [List.flatMap_cons, List.map_append, List.sum_append, hir,
      ih (fun q hq => h q (List.mem_cons_of_mem _ hq))]
    simp [invQtyOf, hfind]

/-- When every product has exactly one inventory row, the number of join
rows in the low-stock band equals the number of products with
0 < quantity_on_hand <= reorder_level. -/
theorem join_lowstock_count (inv : List InventoryRow) :
    ∀ ps : List ProductRow,
    (∀ p ∈ ps, ∃ ir, inv.filter (fun x => x.productId == p.id) = [ir]) →
    ((ps.flatMap (fun p => (inv.filter (fun ir => ir.productId == p.id)).map
        (fun ir => (p, ir)))).filter
      (fun pr => pr.2.quantityOnHand ≤ pr.1.reorderLevel &&
                 pr.2.quantityOnHand > 0)).length =
    (ps.filter (fun p => 0 < invQtyOf inv p.id &&
      invQtyOf inv p.id ≤ p.reorderLevel)).length := by
  intro ps
  induction ps with
  | nil => intro h; rfl
  | cons p ps ih =>
    intro h
    obtain ⟨ir, hir⟩ := h p (List.mem_cons_self _ _)
    have hfind : inv.find? (fun x => x.productId == p.id) = some ir :=
      find?_of_filter_cons hir
    have hq : invQtyOf inv p.id = ir.quantityOnHand := by
      simp [invQtyOf, hfind]
    rw [List.flatMap_cons, List.filter_append, List.length_append, hir,
      ih (fun q hq2 => h q (List.mem_cons_of_mem _ hq2))]
    simp only [List.map_cons, List.map_nil, List.filter_cons, List.filter_nil,
      hq]
    by_cases hc1 : 0 < ir.quantityOnHand
    · by_cases hc2 : ir.quantityOnHand ≤ p.reorderLevel
      · simp [hc1, hc2]
        omega
      · simp [hc1, hc2]
    · simp [hc1]

/-- C7: getInventoryReport returns totalProducts = number of products rows,
totalValue = the sum over all products of unit_price times
quantity_on_hand, lowStockItems = the number of products with
0 < quantity_on_hand <= reorder_level, and outOfStockItems = the number of
inventory rows with quantity_on_hand = 0, whenever each product has exactly
one inventory row (as in every reachable state). -/
theorem c7_inventory_report (db : DB)
    (h : ∀ p ∈ db.products,
      (db.inventory.filter (fun x => x.productId == p.id)).length = 1) :
    getInventoryReport db =
      { totalProducts := db.products.length
        totalValue := specTotalValue db
        lowStockItems := specLowStock db
        outOfStockItems :=
          (db.inventory.filter (fun ir => ir.quantityOnHand == 0)).length } := by
  have h2 : ∀ p ∈ db.products, ∃ ir,
      db.inventory.filter (fun x => x.productId == p.id) = [ir] :=
    fun p hp => List.length_eq_one.mp (h p hp)
  unfold getInventoryReport specTotalValue specLowStock joinRows
  simp only [InventoryReport.mk.injEq]
  exact ⟨trivial, join_value_sum db.inventory db.products h2,
    join_lowstock_count db.inventory db.products h2, trivial⟩

/-- Witness for C7 on the concrete state wdb2. -/
theorem c7_inventory_report_witness :
    getInventoryReport wdb2 =
      { totalProducts := wdb2.products.length
        totalValue := specTotalValue wdb2
        lowStockItems := specLowStock wdb2
        outOfStockItems :=
          (wdb2.inventory.filter (fun ir => ir.quantityOnHand == 0)).length } :=
  c7_inventory_report wdb2 (by decide)

/-- Equality of concrete API results is decidable componentwise. -/
instance {ε α : Type} [DecidableEq ε] [DecidableEq α] :
    DecidableEq (Except ε α) := fun a b =>
  match a, b with
  | .ok x, .ok y => decidable_of_iff (x = y) (by simp)
  | .error x, .error y => decidable_of_iff (x = y) (by simp)
  | .ok _, .error _ => isFalse (fun hc => Except.noConfusion hc)
  | .error _, .ok _ => isFalse (fun hc => Except.noConfusion hc)

/-- Whether an API result is a not-found error. -/
def isNotFound {α : Type} : Except ApiError α → Bool
  | .error (.notFound _) => true
  | _ => false

/-- The C3 request: RECEIVE 5 units of product 1 with staffId = 0. -/
def creq0 : CreateTransactionRequest :=
  { productId := 1, transactionType := .receive, quantity := 5
    referenceNumber := none, notes := none, createdBy := none
    staffId := some 0 }

/-- C3 counterexample: on wdb1 (product 1 present, staff table empty) with
staffId = 0 supplied, the staff row does not exist yet createTransaction
fails with the rethrown foreign-key violation, not a not-found error: the
truthiness test if (req.staffId) skips the staff lookup for 0. -/
theorem c3_counterexample :
    wdb1.products.any (fun p => p.id == creq0.productId) = true ∧
    creq0.staffId = some 0 ∧
    wdb1.staff.any (fun st => st.id == 0) = false ∧
    createTransaction 9 creq0 wdb1 =
      .error (.fkViolation "inventory_transactions_staff_id_fkey") ∧
    isNotFound (createTransaction 9 creq0 wdb1) = false := by
  refine ⟨by decide, rfl, by decide, by decide, by decide⟩

/-- C3 (amended): createTransaction records a row only when the product
exists and any provided staffId has a staff row.  A missing product, or a
missing staff row referenced by a nonzero staffId, yields a not-found
error; a zero staffId with no matching staff row skips the
truthiness-guarded staff check and instead fails with the rethrown
foreign-key violation of the INSERT; every failure leaves the database
unchanged. -/
theorem c3_transaction_guards (now : Nat) (req : CreateTransactionRequest)
    (db : DB) :
    (db.products.any (fun p => p.id == req.productId) = false →
      createTransaction now req db = .error (.notFound "Product not found")) ∧
    (∀ s, req.staffId = some s → s ≠ 0 →
      db.staff.any (fun st => st.id == s) = false →
      db.products.any (fun p => p.id == req.productId) = true →
      createTransaction now req db =
        .error (.notFound "Staff member not found")) ∧
    (req.staffId = some 0 →
      db.staff.any (fun st => st.id == 0) = false →
      db.products.any (fun p => p.id == req.productId) = true →
      createTransaction now req db =
        .error (.fkViolation "inventory_transactions_staff_id_fkey")) ∧
    (∀ t db2, createTransaction now req db = .ok (t, db2) →
      db.products.any (fun p => p.id == req.productId) = true ∧
      ∀ s, req.staffId = some s →
        db.staff.any (fun st => st.id == s) = true) ∧
    (∀ e, createTransaction now req db = .error e →
      dbAfter (createTransaction now req db) db = db) := by
  refine ⟨?_, ?_, ?_, ?_, ?_⟩
  · intro hany
    have hfind : db.products.find? (fun p => p.id == req.productId) = none := by
      rw [List.find?_eq_none]
      exact List.any_eq_false.mp hany
    unfold createTransaction
    rw [hfind]
  · intro s hs hs0 hany hprod
    have hfind := List.find?_isSome.mpr (List.any_eq_true.mp hprod)
    obtain ⟨p, hp⟩ := Option.isSome_iff_exists.mp hfind
    have hcheck : staffCheckFails req db = true := by
      simp [staffCheckFails, hs, hany, hs0]
    unfold createTransaction
    rw [hp, hcheck]
    rfl
  · intro hs hany hprod
    have hfind := List.find?_isSome.mpr (List.any_eq_true.mp hprod)
    obtain ⟨p, hp⟩ := Option.isSome_iff_exists.mp hfind
    have hcheck : staffCheckFails req db = false := by
      simp [staffCheckFails, hs]
    have hfk : staffFkViolated req db = true := by
      simp [staffFkViolated, hs, hany]
    unfold createTransaction
    rw [hp, hcheck, hfk]
    rfl
  · intro t db2 h
    obtain ⟨⟨p, hp⟩, -, hfk, -, -, -⟩ := createTransaction_ok_inv h
    refine ⟨List.any_eq_true.mpr (List.find?_isSome.mp (by rw [hp]; rfl)), ?_⟩
    intro s hs
    simp only [staffFkViolated, hs, Bool.not_eq_false'] at hfk
    exact hfk
  · intro e he
    rw [he]
    rfl

/-- Witness for the amended C3: a missing product, a missing nonzero staff
id, and the zero staff id each fail as stated. -/
theorem c3_transaction_guards_witness :
    createTransaction 9
      { productId := 5, transactionType := .receive, quantity := 5
        referenceNumber := none, notes := none, createdBy := none
        staffId := none } DB.empty =
      .error (.notFound "Product not found") ∧
    createTransaction 9
      { productId := 1, transactionType := .receive, quantity := 5
        referenceNumber := none, notes := none, createdBy := none
        staffId := some 3 } wdb1 =
      .error (.notFound "Staff member not found") ∧
    createTransaction 9 creq0 wdb1 =
      .error (.fkViolation "inventory_transactions_staff_id_fkey") :=
  ⟨(c3_transaction_guards 9
      { productId := 5, transactionType := .receive, quantity := 5
        referenceNumber := none, notes := none, createdBy := none
        staffId := none } DB.empty).1 (by decide),
   (c3_transaction_guards 9
      { productId := 1, transactionType := .receive, quantity := 5
        referenceNumber := none, notes := none, createdBy := none
        staffId := some 3 } wdb1).2.1 3 rfl (by decide) (by decide) (by decide),
   (c3_transaction_guards 9 creq0 wdb1).2.2.1 rfl (by decide) (by decide)⟩

/-- Row-existence invariant: every product has at least one inventory
row. -/
def RowGood (db : DB) : Prop :=
  ∀ p ∈ db.products, ∃ ir ∈ db.inventory, ir.productId = p.id

/-- RowGood only looks at the products and inventory tables. -/
theorem rowGood_of_frame {db db2 : DB} (hp : db2.products = db.products)
    (hi : db2.inventory = db.inventory) (hg : RowGood db) : RowGood db2 := by
  unfold RowGood at *
  rw [hp, hi]
  exact hg

/-- Every reachable state satisfies the row-existence invariant. -/
theorem rowGood_reachable {db : DB} (h : Reachable db) : RowGood db := by
  induction h with
  | init => intro p hp; simp [DB.empty] at hp
  | stepCreateProduct hr hok ih =>
    obtain ⟨-, hprow, hdb⟩ := createProduct_ok_inv hok
    subst hdb
    intro p hp
    simp only [List.mem_append, List.mem_singleton] at hp
    rcases hp with hp | rfl
    · obtain ⟨ir, hmem, hpid⟩ := ih p hp
      exact ⟨ir, List.mem_append_left _ hmem, hpid⟩
    · subst hprow
      exact ⟨_, List.mem_append_right _ (List.mem_singleton.mpr rfl), rfl⟩
  | stepUpdateProduct hr hok ih =>
    obtain ⟨-, hdb⟩ := updateProduct_ok_inv hok
    subst hdb
    intro p hp
    simp only [List.mem_map] at hp
    obtain ⟨y, hy, rfl⟩ := hp
    obtain ⟨ir, hmem, hpid⟩ := ih y hy
    refine ⟨ir, hmem, ?_⟩
    split
    · rw [hpid]; rfl
    · exact hpid
  | stepDeleteProduct hr hok ih =>
    obtain ⟨-, hdb⟩ := deleteProduct_ok_inv hok
    subst hdb
    intro p hp
    obtain ⟨hpm, hpk⟩ := List.mem_filter.mp hp
    obtain ⟨ir, hmem, hpid⟩ := ih p hpm
    refine ⟨ir, List.mem_filter.mpr ⟨hmem, ?_⟩, hpid⟩
    rw [hpid]
    exact hpk
  | stepCreateTransaction hr hok ih =>
    obtain ⟨-, -, -, -, -, hdb⟩ := createTransaction_ok_inv hok
    subst hdb
    intro p hp
    obtain ⟨ir, hmem, hpid⟩ := ih p hp
    simp only [commitTransaction, List.mem_map]
    refine ⟨_, ⟨ir, hmem, rfl⟩, ?_⟩
    split
    · rw [← hpid]; rfl
    · exact hpid
  | stepCreateAsset hr hok ih =>
    obtain ⟨hp, hi, -, -, -⟩ := createAsset_ok_frame hok
    exact rowGood_of_frame hp hi ih
  | stepUpdateAsset hr hok ih =>
    obtain ⟨hp, hi, -, -, -⟩ := updateAsset_ok_frame hok
    exact rowGood_of_frame hp hi ih
  | stepDeleteAsset hr hok ih =>
    obtain ⟨hp, hi, -, -, -⟩ := deleteAsset_ok_frame hok
    exact rowGood_of_frame hp hi ih
  | stepCreateMaintenance hr hok ih =>
    obtain ⟨hp, hi, -, -, -⟩ := createMaintenance_ok_frame hok
    exact rowGood_of_frame hp hi ih
  | stepCreateStaff hr hok ih =>
    obtain ⟨hp, hi, -, -⟩ := createStaff_ok_frame hok
    exact rowGood_of_frame hp hi ih
  | stepUpdateStaff hr hok ih =>
    obtain ⟨hp, hi, -, -⟩ := updateStaff_ok_frame hok
    exact rowGood_of_frame hp hi ih
  | stepDeleteStaff hr hok ih =>
    obtain ⟨hp, hi, -, -⟩ := deleteStaff_ok_frame hok
    exact rowGood_of_frame hp hi ih

/-- In every reachable state each product has exactly one inventory row,
which is the hypothesis of the report-correctness theorem. -/
theorem product_has_one_inventory_row {db : DB} (h : Reachable db) :
    ∀ p ∈ db.products,
      (db.inventory.filter (fun x => x.productId == p.id)).length = 1 := by
  intro p hp
  obtain ⟨ir, hmem, hpid⟩ := rowGood_reachable h p hp
  have hne : ir ∈ db.inventory.filter (fun x => x.productId == p.id) :=
    List.mem_filter.mpr ⟨hmem, by simpa using hpid⟩
  cases hfil : db.inventory.filter (fun x => x.productId == p.id) with
  | nil => rw [hfil] at hne; simp at hne
  | cons a rest =>
    have := filter_singleton_of_nodup (invGood_reachable h).2.1 hfil
    subst this
    rfl
